import Mathlib

/-!
Shallow embedding of `src/fix/sequences.py` (plain variant) and
`src/fix/robust-sequences.py` (robust variant).

Both scripts compute a geometric sequence `a * r^i` for `i` in `range(n)`
and print it together with a nonce read from the environment variable
`TASK_NONCE`.  Python values flowing through the generator are modelled by
`Value`: either an exact (unbounded) Python integer, or an opaque
non-numeric value (the spec's "injecting a non-numeric ratio" fault).
Python exceptions are modelled with `Except String`; the string is the
exception message.  Standard output is modelled as a list of lines
(`traceback.print_exc()` writes to stderr and therefore does not appear
in the stdout trace).  Process exit codes: `0` for a normal return or
`sys.exit(0)`, `2` for `sys.exit(2)`, `1` for an exception that escapes
`main` (CPython's exit status for an unhandled exception).

Fault injection ("forcing a fault", section 8 of the spec) is modelled by
an optional `FaultSite`: the single operation of the run at which an
injected exception is raised.  An environment-access fault is persistent:
both reads of `os.environ` raise.  The actual, uninstrumented program is
the instance `fault = none`, ratio value `Value.num 2`.
-/

/-- A Python value reaching the arithmetic of the generator: an exact
unbounded integer, or a non-numeric value (carrying a description). -/
inductive Value where
  | num : Int → Value
  | nonNum : String → Value
deriving DecidableEq, Repr

/-- How a value prints inside an f-string (`str`); for integers this is the
decimal numeral. -/
def Value.render : Value → String
  | .num i => toString i
  | .nonNum s => s

/-- Python `r ** i` for a loop index `i ≥ 0` (the loop variable of
`range(n)` is always non-negative, so integer exponentiation is total);
a non-numeric base raises `TypeError`. -/
def pyPowNat : Value → Nat → Except String Value
  | .num r, i => Except.ok (Value.num (r ^ i))
  | .nonNum _, _ => Except.error "unsupported operand type(s) for ** or pow()"

/-- Python `a * b` on the operands the generator can produce: exact integer
multiplication; a non-numeric operand raises `TypeError`. -/
def pyMul : Value → Value → Except String Value
  | .num a, .num b => Except.ok (Value.num (a * b))
  | _, _ => Except.error "unsupported operand type(s) for *"

/-- Python `str(os.environ.get('TASK_NONCE', 'NO_NONCE_PROVIDED'))`:
the variable's value when set, else the placeholder. -/
def nonceString (nonce : Option String) : String :=
  nonce.getD "NO_NONCE_PROVIDED"

/-- Python `print(sequence)` line for a list of integers: bracketed,
comma-space separated (`repr` of an int equals `str`). -/
def pyListRepr (l : List Value) : String :=
  "[" ++ String.intercalate ", " (l.map Value.render) ++ "]"

/-- The operation of a run at which an injected fault raises.  All sites
are outside the generator (the generator's own fault is injected through
the ratio value instead). -/
inductive FaultSite where
  | envRead
  | printNonce
  | printTitle
  | printRule
  | printParams
  | printSeq
  | printSuccess
deriving DecidableEq, Repr

namespace Sequences

/-- The loop body of `generate_geometric_sequence`
(`src/fix/sequences.py` lines 7-11, identical to
`src/fix/robust-sequences.py` lines 9-13):
`for i in range(n): term = a * (r ** i); sequence.append(term)`.
`l` is the remaining loop indices, `seq` the list built so far; the first
exception propagates. -/
def genLoop (a r : Value) : List Nat → List Value → Except String (List Value)
  | [], seq => Except.ok seq
  | i :: rest, seq =>
    match pyPowNat r i with
    | Except.error e => Except.error e
    | Except.ok p =>
      match pyMul a p with
      | Except.error e => Except.error e
      | Except.ok term => genLoop a r rest (seq ++ [term])

/-- `generate_geometric_sequence(a, r, n)` of `src/fix/sequences.py`
(lines 5-11): iterates over `range(n)` (empty when `n ≤ 0`) and
propagates any exception. -/
def generate_geometric_sequence (a r : Value) (n : Int) : Except String (List Value) :=
  genLoop a r (List.range n.toNat) []

/-- `main()` of `src/fix/sequences.py` (lines 13-31), instrumented with an
optional injected fault and an injected ratio value `rv` (the actual
program is `fault = none`, `rv = Value.num 2`).  Returns the stdout lines
and the process exit code; there is no handler, so an exception escapes
`main` and the process exits 1 with the output produced so far. -/
def main (nonce : Option String) (fault : Option FaultSite) (rv : Value) :
    List String × Int :=
  if fault = some FaultSite.envRead then ([], 1) else
  let nstr := nonceString nonce
  if fault = some FaultSite.printNonce then ([], 1) else
  let out1 := ["NONCE: " ++ nstr]
  if fault = some FaultSite.printTitle then (out1, 1) else
  let out2 := out1 ++ ["Geometric Number Sequence Generator"]
  if fault = some FaultSite.printRule then (out2, 1) else
  let out3 := out2 ++ ["-----------------------------------"]
  match generate_geometric_sequence (Value.num 1) rv 10 with
  | Except.error _ => (out3, 1)
  | Except.ok seq =>
    if fault = some FaultSite.printParams then (out3, 1) else
    let out4 := out3 ++ ["Sequence with a=1, r=" ++ rv.render ++ ", n=10:"]
    if fault = some FaultSite.printSeq then (out4, 1) else
    let out5 := out4 ++ [pyListRepr seq]
    if fault = some FaultSite.printSuccess then (out5, 1) else
    (out5 ++ ["", "Execution successful!"], 0)

end Sequences

namespace RobustSequences

/-- `generate_geometric_sequence(a, r, n)` of
`src/fix/robust-sequences.py` (lines 6-17): the same loop wrapped in
`try/except Exception`; on an exception it prints
`Error generating sequence: {e}` (stdout; the traceback goes to stderr)
and returns `[]`.  Result: diagnostic stdout lines paired with the
returned list. -/
def generate_geometric_sequence (a r : Value) (n : Int) :
    List String × List Value :=
  match Sequences.genLoop a r (List.range n.toNat) [] with
  | Except.ok seq => ([], seq)
  | Except.error e => (["Error generating sequence: " ++ e], [])

/-- The `try` block of `main()` of `src/fix/robust-sequences.py`
(lines 20-41), instrumented like `Sequences.main`.  Returns the stdout
lines produced and whether the block ran to `sys.exit(0)` (`true`) or an
exception was raised (`false`).  `SystemExit` raised by `sys.exit(0)` is
not an `Exception`, so it is not caught by the handler. -/
def mainBody (nonce : Option String) (fault : Option FaultSite) (rv : Value) :
    List String × Bool :=
  if fault = some FaultSite.envRead then ([], false) else
  let nstr := nonceString nonce
  if fault = some FaultSite.printNonce then ([], false) else
  let out1 := ["NONCE: " ++ nstr]
  if fault = some FaultSite.printTitle then (out1, false) else
  let out2 := out1 ++ ["Geometric Number Sequence Generator"]
  if fault = some FaultSite.printRule then (out2, false) else
  let out3 := out2 ++ ["-----------------------------------"]
  let gen := generate_geometric_sequence (Value.num 1) rv 10
  let out3x := out3 ++ gen.1
  if fault = some FaultSite.printParams then (out3x, false) else
  let out4 := out3x ++ ["Sequence with a=1, r=" ++ rv.render ++ ", n=10:"]
  if fault = some FaultSite.printSeq then (out4, false) else
  let out5 := out4 ++ [pyListRepr gen.2]
  if fault = some FaultSite.printSuccess then (out5, false) else
  (out5 ++ ["", "Execution successful!"], true)

/-- `main()` of `src/fix/robust-sequences.py` (lines 19-49).  On success,
`sys.exit(0)`.  On an `Exception`, the handler (lines 42-49) prints
`ERROR: {e}` (the injected exception's message, abstracted), prints the
traceback to stderr, re-reads `TASK_NONCE` from the environment, re-prints
the nonce, and calls `sys.exit(2)`.  A persistent environment-access fault
makes the handler's own `os.environ.get` raise again; that second
exception is unhandled, so the process exits 1 without the nonce line. -/
def main (nonce : Option String) (fault : Option FaultSite) (rv : Value) :
    List String × Int :=
  match mainBody nonce fault rv with
  | (out, true) => (out, 0)
  | (out, false) =>
    let out1 := out ++ ["ERROR: injected fault"]
    if fault = some FaultSite.envRead then (out1, 1)
    else (out1 ++ ["NONCE: " ++ nonceString nonce], 2)

end RobustSequences

/-- On numeric operands the loop body never raises: it appends exactly the
terms `a * r ^ i` for the remaining indices. -/
theorem Sequences.genLoop_num (a r : Int) (l : List Nat) (acc : List Value) :
    Sequences.genLoop (Value.num a) (Value.num r) l acc
      = Except.ok (acc ++ l.map fun i => Value.num (a * r ^ i)) := by
  induction l generalizing acc with
  | nil => simp [Sequences.genLoop]
  | cons i rest ih => simp [Sequences.genLoop, pyPowNat, pyMul, ih]

/-- C1: for every non-negative integer `n` and integers `a`, `r`,
`generate_geometric_sequence(a, r, n)` returns (without raising) a
sequence of length exactly `n` whose element `i` equals `a * r^i` for
every `0 ≤ i < n`; in particular for `n = 0` it returns the empty
sequence. -/
theorem generate_geometric_sequence_correct (a r : Int) (n : Nat) :
    ∃ l : List Value,
      Sequences.generate_geometric_sequence (Value.num a) (Value.num r) (n : Int)
          = Except.ok l ∧
      l.length = n ∧
      (∀ i : Nat, i < n → l[i]? = some (Value.num (a * r ^ i))) ∧
      (n = 0 → l = []) := by
  refine ⟨(List.range n).map fun i => Value.num (a * r ^ i), ?_, by simp, ?_, ?_⟩
  · unfold Sequences.generate_geometric_sequence
    rw [Int.toNat_natCast]
    simpa using Sequences.genLoop_num a r (List.range n) []
  · intro i hi
    simp [List.getElem?_range, hi]
  · intro h
    simp [h]

/-- C5: the default run's parameters `a = 1`, `r = 2`, `n = 10` produce
the sequence `[1, 2, 4, 8, 16, 32, 64, 128, 256, 512]`, in both variants,
and that exact line appears in the output of both variants' default runs. -/
theorem default_run_sequence :
    Sequences.generate_geometric_sequence (Value.num 1) (Value.num 2) 10
        = Except.ok ([1, 2, 4, 8, 16, 32, 64, 128, 256, 512].map Value.num) ∧
    RobustSequences.generate_geometric_sequence (Value.num 1) (Value.num 2) 10
        = ([], [1, 2, 4, 8, 16, 32, 64, 128, 256, 512].map Value.num) ∧
    "[1, 2, 4, 8, 16, 32, 64, 128, 256, 512]"
        ∈ (Sequences.main none none (Value.num 2)).1 ∧
    "[1, 2, 4, 8, 16, 32, 64, 128, 256, 512]"
        ∈ (RobustSequences.main none none (Value.num 2)).1 := by
  refine ⟨rfl, rfl, ?_, ?_⟩ <;> decide

/-- C8: the two variants' generators are extensionally equal: whenever the
plain variant's generator evaluates without an exception to a sequence
`l`, the robust variant's generator returns the same sequence `l` (and
prints no diagnostic). -/
theorem generators_extensionally_equal (a r : Value) (n : Int) (l : List Value)
    (h : Sequences.generate_geometric_sequence a r n = Except.ok l) :
    RobustSequences.generate_geometric_sequence a r n = ([], l) := by
  unfold Sequences.generate_geometric_sequence at h
  unfold RobustSequences.generate_geometric_sequence
  rw [h]

/-- Witness for C8 at `a = 2`, `r = 3`, `n = 4`. -/
theorem generators_extensionally_equal_witness :
    RobustSequences.generate_geometric_sequence (Value.num 2) (Value.num 3) 4
      = ([], [Value.num 2, Value.num 6, Value.num 18, Value.num 54]) :=
  generators_extensionally_equal (Value.num 2) (Value.num 3) 4
    [Value.num 2, Value.num 6, Value.num 18, Value.num 54] rfl

/-- C9: for every negative `n` the loop over `range(n)` performs zero
iterations, so both variants' generators return the empty sequence without
failing, for arbitrary `a` and `r` (numeric or not). -/
theorem negative_n_returns_empty (a r : Value) (n : Int) (h : n < 0) :
    Sequences.generate_geometric_sequence a r n = Except.ok [] ∧
    RobustSequences.generate_geometric_sequence a r n = ([], []) := by
  have h0 : n.toNat = 0 := Int.toNat_of_nonpos h.le
  constructor <;>
    simp [Sequences.generate_geometric_sequence,
      RobustSequences.generate_geometric_sequence, h0, Sequences.genLoop]

/-- Witness for C9 at `a` non-numeric, `r = 5`, `n = -1`. -/
theorem negative_n_returns_empty_witness :
    Sequences.generate_geometric_sequence (Value.nonNum "x") (Value.num 5) (-1)
        = Except.ok [] ∧
    RobustSequences.generate_geometric_sequence (Value.nonNum "x") (Value.num 5) (-1)
        = ([], []) :=
  negative_n_returns_empty (Value.nonNum "x") (Value.num 5) (-1) (by decide)

/-- C4: in every (fault-free) run of either variant, for any ratio value,
the first stdout line is `NONCE: v` when `TASK_NONCE` is set to `v`, and
`NONCE: NO_NONCE_PROVIDED` when it is unset. -/
theorem nonce_first_line (v : String) (rv : Value) :
    (Sequences.main (some v) none rv).1.head? = some ("NONCE: " ++ v) ∧
    (Sequences.main none none rv).1.head? = some "NONCE: NO_NONCE_PROVIDED" ∧
    (RobustSequences.main (some v) none rv).1.head? = some ("NONCE: " ++ v) ∧
    (RobustSequences.main none none rv).1.head? = some "NONCE: NO_NONCE_PROVIDED" := by
  have hp : ∀ nonce, (Sequences.main nonce none rv).1.head?
      = some ("NONCE: " ++ nonceString nonce) := by
    intro nonce
    rcases hg : Sequences.generate_geometric_sequence (Value.num 1) rv 10 with e | seq <;>
      simp [Sequences.main, hg]
  have hr : ∀ nonce, (RobustSequences.main nonce none rv).1.head?
      = some ("NONCE: " ++ nonceString nonce) := by
    intro nonce
    simp [RobustSequences.main, RobustSequences.mainBody]
  exact ⟨hp (some v), hp none, hr (some v), hr none⟩

/-- C6: a successful (fault-free) run of either variant, for any value of
`TASK_NONCE`, prints exactly these lines in order: the nonce line, the
title banner, the dashed rule, the parameter line, the bracketed
comma-separated sequence, a blank line, and `Execution successful!` — and
exits 0. -/
theorem successful_run_output (nonce : Option String) :
    Sequences.main nonce none (Value.num 2)
      = (["NONCE: " ++ nonceString nonce,
          "Geometric Number Sequence Generator",
          "-----------------------------------",
          "Sequence with a=1, r=2, n=10:",
          "[1, 2, 4, 8, 16, 32, 64, 128, 256, 512]",
          "",
          "Execution successful!"], 0) ∧
    RobustSequences.main nonce none (Value.num 2)
      = (["NONCE: " ++ nonceString nonce,
          "Geometric Number Sequence Generator",
          "-----------------------------------",
          "Sequence with a=1, r=2, n=10:",
          "[1, 2, 4, 8, 16, 32, 64, 128, 256, 512]",
          "",
          "Execution successful!"], 0) :=
  ⟨rfl, rfl⟩

/-- C3: injecting a non-numeric ratio makes the loop raise a TypeError at
its first exponentiation; the robust generator catches it, prints the
diagnostic, and returns the empty sequence; the default run then prints
`[]` and exits 0 instead of crashing. -/
theorem robust_computation_fault (nonce : Option String) (s : String) :
    RobustSequences.generate_geometric_sequence (Value.num 1) (Value.nonNum s) 10
        = (["Error generating sequence: unsupported operand type(s) for ** or pow()"],
           []) ∧
    (RobustSequences.main nonce none (Value.nonNum s)).2 = 0 ∧
    "[]" ∈ (RobustSequences.main nonce none (Value.nonNum s)).1 := by
  refine ⟨rfl, ?_, ?_⟩ <;>
    simp [RobustSequences.main, RobustSequences.mainBody,
      RobustSequences.generate_geometric_sequence, Sequences.genLoop, pyPowNat,
      pyListRepr]
  exact Or.inr (Or.inr rfl)

/-- C2 counterexample: with a persistent environment-access fault, the
handler's own re-read of `TASK_NONCE` raises again, so the robust run
exits 1 — not 2 — and the nonce line does not appear in the output. -/
theorem env_fault_breaks_handler :
    (RobustSequences.main (some "abc123") (some FaultSite.envRead) (Value.num 2)).2 ≠ 2 ∧
    "NONCE: abc123"
      ∉ (RobustSequences.main (some "abc123") (some FaultSite.envRead) (Value.num 2)).1 := by
  decide

/-- C2 amended: a fault injected at any run step other than the
environment read is caught by the robust variant's handler, which
re-prints the nonce and exits 2; only a persistent environment-access
fault re-raises inside the handler, exiting 1 without the nonce line. -/
theorem robust_outer_fault_exit (nonce : Option String) (rv : Value)
    (s : FaultSite) (h : s ≠ FaultSite.envRead) :
    (RobustSequences.main nonce (some s) rv).2 = 2 ∧
    ("NONCE: " ++ nonceString nonce)
      ∈ (RobustSequences.main nonce (some s) rv).1 := by
  cases s <;> first
    | exact absurd rfl h
    | simp [RobustSequences.main, RobustSequences.mainBody]

/-- Witness for the amended C2 at a fault on the title print. -/
theorem robust_outer_fault_exit_witness :
    (RobustSequences.main none (some FaultSite.printTitle) (Value.num 2)).2 = 2 ∧
    ("NONCE: " ++ nonceString none)
      ∈ (RobustSequences.main none (some FaultSite.printTitle) (Value.num 2)).1 :=
  robust_outer_fault_exit none (Value.num 2) FaultSite.printTitle (by decide)

/-- C7: fault-free runs of both variants exit 0 (the plain variant with
its actual numeric ratio, the robust variant with any ratio value, since
its generator catches computation faults); the plain variant never exits
2: every plain run, under any injected fault and ratio, exits 0 or
propagates an unhandled fault (exit 1). -/
theorem exit_code_policy (nonce : Option String) (fault : Option FaultSite)
    (rv : Value) (r : Int) :
    (Sequences.main nonce none (Value.num r)).2 = 0 ∧
    (RobustSequences.main nonce none rv).2 = 0 ∧
    (Sequences.main nonce fault rv).2 ≠ 2 ∧
    ((Sequences.main nonce fault rv).2 = 0 ∨ (Sequences.main nonce fault rv).2 = 1) := by
  have hmain : ∀ f : Option FaultSite,
      (Sequences.main nonce f rv).2 = 0 ∨ (Sequences.main nonce f rv).2 = 1 := by
    intro f
    rcases hg : Sequences.generate_geometric_sequence (Value.num 1) rv 10 with e | seq
    all_goals cases f with
      | none => simp [Sequences.main, hg]
      | some s => cases s <;> simp [Sequences.main, hg]
  refine ⟨?_, ?_, ?_, hmain fault⟩
  · have hg : Sequences.generate_geometric_sequence (Value.num 1) (Value.num r) 10
        = Except.ok ((List.range 10).map fun i => Value.num (1 * r ^ i)) := by
      unfold Sequences.generate_geometric_sequence
      simpa using Sequences.genLoop_num 1 r (List.range (Int.toNat 10)) []
    simp [Sequences.main, hg]
  · simp [RobustSequences.main, RobustSequences.mainBody]
  · rcases hmain fault with h | h <;> simp [h]

/-- C10: for integer `a`, integer `r` and non-negative `n`, the robust
generator's `except` branch is unreachable: integer arithmetic is exact
and never raises, so no diagnostic is printed and the full `n`-term
sequence is returned. -/
theorem robust_error_branch_unreachable (a r : Int) (n : Nat) :
    RobustSequences.generate_geometric_sequence (Value.num a) (Value.num r) (n : Int)
      = ([], (List.range n).map fun i => Value.num (a * r ^ i)) := by
  unfold RobustSequences.generate_geometric_sequence
  rw [Int.toNat_natCast, Sequences.genLoop_num]
  simp
